import Mathlib

/-!
Verification of the `trading_bot` paper-trading engine.

Shallow embedding of the Python sources under `trading_bot/`.  Python
floats are modelled as rationals (`ℚ`), Python ints used as counters as
naturals, configuration integers as `ℤ` where comparisons against
counters matter.  The seeded pseudo-random generator of the paper broker
is modelled as an abstract stream of draws in `[0,1)`: each simulated
fill consumes one `(partial-decision, ratio)` pair from the stream.
-/

namespace TradingBot

/-! ## Data model (`edge/regime_detector.py`, `edge/edge_gate.py`) -/

/-- `RegimeState` from `edge/regime_detector.py`. -/
structure RegimeState where
  is_range_bound : Bool
  volatility : ℚ
  trend_strength : ℚ
  range_ratio : ℚ
  deriving Repr, DecidableEq

/-- `EdgeDecision` from `edge/edge_gate.py`. -/
structure EdgeDecision where
  is_on : Bool
  confidence : ℚ
  reason : String
  deriving Repr, DecidableEq

/-- `EdgeGate` configuration (`edge/edge_gate.py`, `__init__`). -/
structure EdgeGate where
  volatility_threshold : ℚ
  trend_strength_threshold : ℚ
  min_confidence : ℚ
  deriving Repr, DecidableEq

/-- `EdgeGate.evaluate` from `edge/edge_gate.py`. -/
def EdgeGate.evaluate (g : EdgeGate) (regime : RegimeState) : EdgeDecision :=
  let vol_ok : Bool := regime.volatility ≤ g.volatility_threshold
  let trend_ok : Bool := regime.trend_strength ≤ g.trend_strength_threshold
  let range_ok : Bool := regime.is_range_bound
  let score : ℚ :=
    ((if vol_ok then (1 : ℚ) else 0) + (if trend_ok then (1 : ℚ) else 0) +
      (if range_ok then (1 : ℚ) else 0)) / 3
  let confidence : ℚ := max 0 (min 1 score)
  let is_on : Bool := vol_ok && trend_ok && range_ok && decide (confidence ≥ g.min_confidence)
  let reason : String :=
    if is_on then "edge_on"
    else "edge_off(vol_ok=" ++ toString vol_ok ++ ",trend_ok=" ++ toString trend_ok ++
      ",range_ok=" ++ toString range_ok ++ ")"
  { is_on := is_on, confidence := confidence, reason := reason }

/-! ## Position sizing (`risk/position_sizer.py`) -/

/-- `PositionSizer` configuration. -/
structure PositionSizer where
  risk_per_trade_pct : ℚ
  min_notional_usdt : ℚ
  deriving Repr, DecidableEq

/-- `PositionSizer.size` from `risk/position_sizer.py`; `floor(qty*1e6)/1e6`
is the source's 6-decimal quantization. -/
def PositionSizer.size (s : PositionSizer) (available_usdt price : ℚ) : ℚ :=
  if available_usdt ≤ 0 ∨ price ≤ 0 then 0
  else
    let notional := max s.min_notional_usdt (available_usdt * s.risk_per_trade_pct)
    if notional > available_usdt then 0
    else
      let qty := notional / price
      (⌊qty * 1000000⌋ : ℚ) / 1000000

/-! ## Daily limits (`risk/daily_limits.py`) -/

/-- `DailyLimits` configuration. -/
structure DailyLimits where
  daily_profit_cap_pct : ℚ
  daily_loss_cap_pct : ℚ
  deriving Repr, DecidableEq

/-- `DailyLimits.can_continue` from `risk/daily_limits.py`. -/
def DailyLimits.can_continue (l : DailyLimits) (start_balance current_equity : ℚ) :
    Bool × String :=
  if start_balance ≤ 0 then (false, "invalid_start_balance")
  else
    let pnl_pct := (current_equity - start_balance) / start_balance
    if pnl_pct ≥ l.daily_profit_cap_pct then (false, "daily_profit_cap_hit")
    else if pnl_pct ≤ -|l.daily_loss_cap_pct| then (false, "daily_loss_cap_hit")
    else (true, "ok")

/-! ## Trade limiter (`risk/trade_limiter.py`)

The Python object holds both its configuration and its mutable counters;
we carry them together in one record and thread the state explicitly. -/

/-- `TradeLimiter` state (`__init__` fields; counters start at 0, stored
key starts `None`). -/
structure TradeLimiter where
  max_signals_per_regime : ℤ
  max_trades_per_day : ℤ
  regime_attempts : ℕ
  trade_count : ℕ
  last_regime_key : Option String
  deriving Repr, DecidableEq

/-- The key-adoption prefix of `allow_signal`: on a differing key the
attempt counter is reset to 0 and the new key adopted. -/
def TradeLimiter.adopt_key (t : TradeLimiter) (regime_key : String) : TradeLimiter :=
  if t.last_regime_key ≠ some regime_key then
    { t with last_regime_key := some regime_key, regime_attempts := 0 }
  else t

/-- `TradeLimiter.allow_signal`: returns the `(allowed, reason)` pair and
the post-call limiter state. -/
def TradeLimiter.allow_signal (t : TradeLimiter) (regime_key : String) :
    (Bool × String) × TradeLimiter :=
  let t1 := t.adopt_key regime_key
  if (t1.regime_attempts : ℤ) ≥ t1.max_signals_per_regime then
    ((false, "regime_attempt_limit"), t1)
  else if (t1.trade_count : ℤ) ≥ t1.max_trades_per_day then
    ((false, "daily_trade_limit"), t1)
  else
    ((true, "ok"), { t1 with regime_attempts := t1.regime_attempts + 1 })

/-- `TradeLimiter.mark_trade`. -/
def TradeLimiter.mark_trade (t : TradeLimiter) : TradeLimiter :=
  { t with trade_count := t.trade_count + 1 }

/-! ## PnL tracking (`accounting/pnl_tracker.py`) -/

/-- `PnLTracker` dataclass; `entry_value` models the `_entry_value` slot. -/
structure PnLTracker where
  realized_pnl : ℚ := 0
  wins : ℕ := 0
  losses : ℕ := 0
  peak_equity : ℚ := 0
  max_drawdown : ℚ := 0
  trades_closed : ℕ := 0
  edge_off_ticks : ℕ := 0
  total_ticks : ℕ := 0
  daily_trade_count : ℕ := 0
  entry_value : Option ℚ := none
  deriving Repr, DecidableEq

/-- `PnLTracker.mark_entry`. -/
def PnLTracker.mark_entry (p : PnLTracker) (gross_cost : ℚ) : PnLTracker :=
  { p with entry_value := some gross_cost }

/-- `PnLTracker.mark_exit`. -/
def PnLTracker.mark_exit (p : PnLTracker) (gross_proceeds : ℚ) : PnLTracker :=
  match p.entry_value with
  | none => p
  | some entry =>
    let pnl := gross_proceeds - entry
    { p with
      realized_pnl := p.realized_pnl + pnl
      trades_closed := p.trades_closed + 1
      daily_trade_count := p.daily_trade_count + 1
      wins := if pnl ≥ 0 then p.wins + 1 else p.wins
      losses := if pnl ≥ 0 then p.losses else p.losses + 1
      entry_value := none }

/-- `PnLTracker.update_equity`. -/
def PnLTracker.update_equity (p : PnLTracker) (equity : ℚ) : PnLTracker :=
  let peak := max p.peak_equity equity
  if peak > 0 then
    let dd := (peak - equity) / peak
    { p with peak_equity := peak, max_drawdown := max p.max_drawdown dd }
  else
    { p with peak_equity := peak }

/-- `PnLTracker.mark_edge_state`. -/
def PnLTracker.mark_edge_state (p : PnLTracker) (is_edge_on : Bool) : PnLTracker :=
  { p with
    total_ticks := p.total_ticks + 1
    edge_off_ticks := if is_edge_on then p.edge_off_ticks else p.edge_off_ticks + 1 }

/-- `PnLTracker.win_rate` property. -/
def PnLTracker.win_rate (p : PnLTracker) : ℚ :=
  if p.trades_closed = 0 then 0 else (p.wins : ℚ) / (p.trades_closed : ℚ)

/-- `PnLTracker.edge_off_ratio` property. -/
def PnLTracker.edge_off_ratio (p : PnLTracker) : ℚ :=
  if p.total_ticks = 0 then 0 else (p.edge_off_ticks : ℚ) / (p.total_ticks : ℚ)

/-! ## Account balance (`accounting/balance.py`) -/

/-- `AccountBalance` dataclass. -/
structure AccountBalance where
  usdt_free : ℚ
  btc_free : ℚ
  day_start_equity : ℚ
  deriving Repr, DecidableEq

/-- `AccountBalance.equity`. -/
def AccountBalance.equity (b : AccountBalance) (mark_price : ℚ) : ℚ :=
  b.usdt_free + b.btc_free * mark_price

/-! ## Paper broker (`execution/order.py`, `execution/paper_broker.py`)

The UUID order id is an external effect; it is modelled as the constant
`""` (no behaviour depends on it).  `random.Random` is modelled as a
stream of `(u1, u2)` pairs with `u1, u2 ∈ [0,1)`: `u1` stands for the
`rng.random()` partial-fill draw and `u2` for the `rng.uniform` ratio
draw (`uniform a b = a + (b - a) * u2`). -/

/-- `LimitOrder` from `execution/order.py`. -/
structure LimitOrder where
  order_id : String
  ts : ℚ
  side : String
  price : ℚ
  qty : ℚ
  pair : String
  deriving Repr, DecidableEq

/-- `Fill` from `execution/order.py`. -/
structure Fill where
  order_id : String
  ts : ℚ
  price : ℚ
  qty : ℚ
  fee : ℚ
  is_partial : Bool
  deriving Repr, DecidableEq

/-- `Position` from `execution/paper_broker.py`. -/
structure Position where
  entry_ts : ℚ
  entry_price : ℚ
  qty : ℚ
  tp_price : ℚ
  sl_price : ℚ
  deriving Repr, DecidableEq

/-- `PaperBroker` state: configuration fields of `__init__`, the modelled
RNG stream, and the optional open position. -/
structure PaperBroker where
  fee_rate : ℚ
  partial_fill_probability : ℚ
  min_partial_fill_ratio : ℚ
  max_partial_fill_ratio : ℚ
  slippage_bps : ℚ
  rng : List (ℚ × ℚ)
  position : Option Position
  deriving Repr, DecidableEq

/-- `PaperBroker.build_limit_order` (UUID modelled as `""`). -/
def PaperBroker.build_limit_order (_b : PaperBroker) (ts : ℚ) (side : String)
    (price qty : ℚ) (pair : String) : LimitOrder :=
  { order_id := "", ts := ts, side := side, price := price, qty := qty, pair := pair }

/-- `PaperBroker.simulate_fill`: consumes one draw pair from the RNG
stream and returns the fill plus the advanced broker state. -/
def PaperBroker.simulate_fill (b : PaperBroker) (order : LimitOrder) :
    Fill × PaperBroker :=
  let u := b.rng.headD (0, 0)
  let isP : Bool := u.1 < b.partial_fill_probability
  let ratio : ℚ :=
    if isP then
      b.min_partial_fill_ratio + (b.max_partial_fill_ratio - b.min_partial_fill_ratio) * u.2
    else 1
  let fill_qty := order.qty * ratio
  let slip := b.slippage_bps / 10000
  let slipped_price := order.price * (if order.side = "BUY" then 1 + slip else 1 - slip)
  let fee := slipped_price * fill_qty * b.fee_rate
  ({ order_id := order.order_id, ts := order.ts, price := slipped_price,
     qty := fill_qty, fee := fee, is_partial := isP },
   { b with rng := b.rng.tail })

/-- `PaperBroker.try_open_long`. -/
def PaperBroker.try_open_long (b : PaperBroker) (ts price qty : ℚ) (pair : String)
    (take_profit_pct stop_loss_pct : ℚ) : Option Fill × PaperBroker :=
  if b.position.isSome ∨ qty ≤ 0 then (none, b)
  else
    let order := b.build_limit_order ts "BUY" price qty pair
    let fb := b.simulate_fill order
    (some fb.1,
     { fb.2 with
       position := some
         { entry_ts := ts, entry_price := fb.1.price, qty := fb.1.qty,
           tp_price := fb.1.price * (1 + take_profit_pct),
           sl_price := fb.1.price * (1 - stop_loss_pct) } })

/-- `PaperBroker.check_exit`: returns `((fill?, reason?), broker')`. -/
def PaperBroker.check_exit (b : PaperBroker) (ts market_price : ℚ) :
    (Option Fill × Option String) × PaperBroker :=
  match b.position with
  | none => ((none, none), b)
  | some pos =>
    let reasonOpt : Option String :=
      if market_price ≥ pos.tp_price then some "take_profit"
      else if market_price ≤ pos.sl_price then some "stop_loss"
      else none
    match reasonOpt with
    | none => ((none, none), b)
    | some reason =>
      let order := b.build_limit_order ts "SELL" market_price pos.qty "BTC/USDT"
      let fb := b.simulate_fill order
      ((some fb.1, some reason), { fb.2 with position := none })

/-! ## Indicators (`data/indicators.py`) — only the functions the engine
tick path uses: `pct_change`, `realized_volatility`, `trend_strength`,
`range_bound_ratio`, `ema`. -/

/-- `pct_change` from `data/indicators.py`. -/
def pct_change (new_value old_value : ℚ) : ℚ :=
  if old_value = 0 then 0 else (new_value - old_value) / old_value

/-- Absolute consecutive returns `|pct_change xs[i+1] xs[i]|` of a list;
matches the comprehension in `realized_volatility` applied to the last
`window + 1` closes. -/
def consecAbsRets : List ℚ → List ℚ
  | a :: b :: rest => |pct_change b a| :: consecAbsRets (b :: rest)
  | _ => []

/-- `statistics.mean`, with the source's `if rets else 0.0` empty guard. -/
def meanD (xs : List ℚ) : ℚ :=
  if xs = [] then 0 else xs.sum / (xs.length : ℚ)

/-- `realized_volatility` from `data/indicators.py`: mean absolute return
over the last `window` consecutive-close pairs. -/
def realized_volatility (closes : List ℚ) (window : ℕ) : ℚ :=
  if closes.length < window + 1 then 0
  else meanD (consecAbsRets (closes.drop (closes.length - (window + 1))))

/-- Python `xs[-w]` for `w : ℕ` (with `xs[-0] = xs[0]`); out-of-range
access raises in Python and is modelled as `0` (unreachable from the
engine, whose history is non-empty). -/
def pyNegIdx (xs : List ℚ) (w : ℕ) : ℚ :=
  if w = 0 then xs.headD 0 else xs.getD (xs.length - w) 0

/-- `trend_strength` from `data/indicators.py`. -/
def trend_strength (closes : List ℚ) (window : ℕ) : ℚ :=
  if closes.length < window then 0
  else |pct_change (closes.getLastD 0) (pyNegIdx closes window)|

/-- Python slice `xs[-w:]` for `w : ℕ` (`xs[-0:]` is the whole list, and
so is `xs[-w:]` for `w ≥ len xs`). -/
def pySliceLast (xs : List ℚ) (w : ℕ) : List ℚ :=
  if w = 0 then xs else xs.drop (xs.length - w)

/-- Python `max(xs)` on a non-empty list (`0` on the unreachable empty case). -/
def listMaxD : List ℚ → ℚ
  | [] => 0
  | a :: as => as.foldl max a

/-- Python `min(xs)` on a non-empty list (`0` on the unreachable empty case). -/
def listMinD : List ℚ → ℚ
  | [] => 0
  | a :: as => as.foldl min a

/-- `range_bound_ratio` from `data/indicators.py`. -/
def range_bound_ratio (highs lows closes : List ℚ) : ℚ :=
  if highs = [] ∨ lows = [] ∨ closes = [] then 1
  else
    let price_range := listMaxD highs - listMinD lows
    let net_move := |closes.getLastD 0 - closes.headD 0|
    if price_range ≤ 0 then 1 else net_move / price_range

/-- `ema` from `data/indicators.py`.  The source raises `ValueError` on
`period ≤ 0` or an empty series; both are modelled as `0` (the engine
only calls it with a positive period and non-empty history). -/
def ema (values : List ℚ) (period : ℕ) : ℚ :=
  if period = 0 then 0
  else
    match values with
    | [] => 0
    | v0 :: rest =>
      let k : ℚ := 2 / ((period : ℚ) + 1)
      rest.foldl (fun acc v => v * k + acc * (1 - k)) v0

/-! ## Regime detector (`edge/regime_detector.py`) -/

/-- `RegimeDetector` configuration. -/
structure RegimeDetector where
  volatility_window : ℕ
  volatility_threshold : ℚ
  trend_window : ℕ
  trend_strength_threshold : ℚ
  range_ratio_threshold : ℚ
  deriving Repr, DecidableEq

/-- `RegimeDetector.classify`. -/
def RegimeDetector.classify (d : RegimeDetector) (highs lows closes : List ℚ) :
    RegimeState :=
  let vol := realized_volatility closes d.volatility_window
  let tr := trend_strength closes d.trend_window
  let rr := range_bound_ratio (pySliceLast highs d.trend_window)
    (pySliceLast lows d.trend_window) (pySliceLast closes d.trend_window)
  { is_range_bound := rr ≤ d.range_ratio_threshold,
    volatility := vol, trend_strength := tr, range_ratio := rr }

/-! ## Strategy (`strategy/signal.py`, `strategy/mean_reversion.py`) -/

/-- `Signal` dataclass.  The formatted-deviation suffix of the source's
reason string is log-only and elided. -/
structure Signal where
  ts : ℚ
  side : String
  action : String
  confidence : ℚ
  reason : String
  ref_price : ℚ
  deriving Repr, DecidableEq

/-- `MeanReversionStrategy` configuration. -/
structure MeanReversionStrategy where
  ema_period : ℕ
  entry_deviation_pct : ℚ
  deriving Repr, DecidableEq

/-- `MeanReversionStrategy.generate`. -/
def MeanReversionStrategy.generate (st : MeanReversionStrategy) (ts : ℚ)
    (closes : List ℚ) : Option Signal :=
  if closes.length < st.ema_period then none
  else
    let current := closes.getLastD 0
    let baseline := ema (pySliceLast closes st.ema_period) st.ema_period
    let deviation := pct_change current baseline
    if deviation ≤ -|st.entry_deviation_pct| then
      some { ts := ts, side := "BUY", action := "ENTER",
             confidence := min 1 (|deviation| / max st.entry_deviation_pct (1 / 1000000000)),
             reason := "mean_revert_deviation", ref_price := current }
    else none

/-! ## Engine tick (`engine.py`, `TradingEngine.step` / loop body of
`TradingEngine.run`) -/

/-- A market candle (`data/market_feed.py`); timestamps are abstract
rationals. -/
structure Candle where
  ts : ℚ
  open_price : ℚ
  high : ℚ
  low : ℚ
  close : ℚ
  volume : ℚ
  deriving Repr, DecidableEq

/-- Rounding of a rational to 4 decimals, modelling the `"%.4f"` format
applied inside the engine's regime-key f-string. -/
def fmt4 (q : ℚ) : ℤ := ⌊q * 10000 + 1 / 2⌋

/-- The engine's regime key
`f"range={regime.is_range_bound}|vol={regime.volatility:.4f}|trend={regime.trend_strength:.4f}"`,
with the two floats modelled by their 4-decimal quantization.  Keys are
only ever compared for equality, so the exact rendering is immaterial. -/
def regimeKey (r : RegimeState) : String :=
  "range=" ++ toString r.is_range_bound ++ "|vol=" ++ toString (fmt4 r.volatility) ++
    "|trend=" ++ toString (fmt4 r.trend_strength)

/-- Engine state after warm-up: the components it owns plus the rolling
history lists (`engine.py`, `TradingEngine.__init__` and `step`). -/
structure EngineState where
  detector : RegimeDetector
  edge_gate : EdgeGate
  sizer : PositionSizer
  limits : DailyLimits
  strategy : MeanReversionStrategy
  trade_limiter : TradeLimiter
  broker : PaperBroker
  balance : AccountBalance
  pnl : PnLTracker
  pair : String
  take_profit_pct : ℚ
  stop_loss_pct : ℚ
  closes : List ℚ
  highs : List ℚ
  lows : List ℚ
  deriving Repr, DecidableEq

/-- The terminal event of one engine tick, mirroring the log line at
which `TradingEngine.step` returns. -/
inductive TickEvent where
  | dailyLimitStop (reason : String)
  | noSignal
  | skipEdgeOff
  | skipLimiter (reason : String)
  | skipPositionOpen
  | skipInsufficientBalance
  | entered
  | entryRejected
  deriving Repr, DecidableEq

/-- One engine tick: `TradingEngine.step` from `engine.py` (identical to
one iteration of the `run` loop body), with the warm-up branch already
taken (history lists present in the state). -/
def EngineState.step (e : EngineState) (candle : Candle) : EngineState × TickEvent :=
  let closes := e.closes ++ [candle.close]
  let highs := e.highs ++ [candle.high]
  let lows := e.lows ++ [candle.low]
  let regime := e.detector.classify highs lows closes
  let edge := e.edge_gate.evaluate regime
  let pnl1 := e.pnl.mark_edge_state edge.is_on
  let mark_price := candle.close
  let equity := e.balance.equity mark_price
  let pnl2 := pnl1.update_equity equity
  let res := e.limits.can_continue e.balance.day_start_equity equity
  let e1 := { e with closes := closes, highs := highs, lows := lows, pnl := pnl2 }
  if res.1 = false then (e1, .dailyLimitStop res.2)
  else
    let exitRes := e.broker.check_exit candle.ts mark_price
    let e2 :=
      match exitRes.1.1 with
      | some fill =>
        let proceeds := fill.price * fill.qty - fill.fee
        { e1 with
          broker := exitRes.2,
          balance := { e1.balance with
                        usdt_free := e1.balance.usdt_free + proceeds,
                        btc_free := e1.balance.btc_free - fill.qty },
          pnl := pnl2.mark_exit proceeds }
      | none => { e1 with broker := exitRes.2 }
    match e.strategy.generate candle.ts closes with
    | none => (e2, .noSignal)
    | some sig =>
      let key := regimeKey regime
      let ar := e2.trade_limiter.allow_signal key
      let e3 := { e2 with trade_limiter := ar.2 }
      if edge.is_on = false then (e3, .skipEdgeOff)
      else if ar.1.1 = false then (e3, .skipLimiter ar.1.2)
      else if e3.broker.position.isSome then (e3, .skipPositionOpen)
      else
        let qty := e.sizer.size e3.balance.usdt_free sig.ref_price
        if qty ≤ 0 then (e3, .skipInsufficientBalance)
        else
          let entryRes := e3.broker.try_open_long sig.ts sig.ref_price qty e.pair
            e.take_profit_pct e.stop_loss_pct
          match entryRes.1 with
          | some fill =>
            let cost := fill.price * fill.qty + fill.fee
            ({ e3 with
                broker := entryRes.2,
                balance := { e3.balance with
                              usdt_free := e3.balance.usdt_free - cost,
                              btc_free := e3.balance.btc_free + fill.qty },
                pnl := e3.pnl.mark_entry cost,
                trade_limiter := e3.trade_limiter.mark_trade }, .entered)
          | none => ({ e3 with broker := entryRes.2 }, .entryRejected)

/-! ## Auxiliary definitions for the temporal / invariant claims -/

/-- State of the limiter after `n` successive `allow_signal` calls with
the same key (only the threaded state; results are read off one call at
a time). -/
def allowIter (t : TradeLimiter) (k : String) : ℕ → TradeLimiter
  | 0 => t
  | n + 1 => ((allowIter t k n).allow_signal k).2

/-- The drawdown observations a sequence of `update_equity` calls makes:
at each step the value `(peak - equity) / peak` recorded when the
running peak is positive. -/
def ddObs (p : PnLTracker) : List ℚ → List ℚ
  | [] => []
  | e :: es =>
    let p' := p.update_equity e
    (if p'.peak_equity > 0 then [(p'.peak_equity - e) / p'.peak_equity] else []) ++
      ddObs p' es

/-- The four mutating operations of `PnLTracker`. -/
inductive PnLOp where
  | markEntry (gross_cost : ℚ)
  | markExit (gross_proceeds : ℚ)
  | updateEquity (equity : ℚ)
  | markEdgeState (is_edge_on : Bool)
  deriving Repr, DecidableEq

/-- Apply one `PnLTracker` operation. -/
def applyOp (p : PnLTracker) : PnLOp → PnLTracker
  | .markEntry c => p.mark_entry c
  | .markExit g => p.mark_exit g
  | .updateEquity e => p.update_equity e
  | .markEdgeState b => p.mark_edge_state b

/-- Apply a sequence of `PnLTracker` operations. -/
def applyOps (p : PnLTracker) (ops : List PnLOp) : PnLTracker :=
  ops.foldl applyOp p

/-! ## Concrete instances used by witnesses -/

/-- Concrete instance of C1's gate. -/
def edgeGateC1 : EdgeGate :=
  { volatility_threshold := 1/2, trend_strength_threshold := 1/2, min_confidence := 1 }

/-- Concrete instance of C1's regime. -/
def regimeC1 : RegimeState :=
  { is_range_bound := true, volatility := 0, trend_strength := 0, range_ratio := 1 }

/-- Concrete sizer for C2's witness. -/
def sizerC2 : PositionSizer := { risk_per_trade_pct := 1/100, min_notional_usdt := 10 }

/-- Concrete limits for C6's witness. -/
def limitsC6 : DailyLimits := { daily_profit_cap_pct := 1/100, daily_loss_cap_pct := 1/100 }

/-- C7 witness: limiter with no stored key. -/
def limiterC7a : TradeLimiter :=
  { max_signals_per_regime := 2, max_trades_per_day := 5, regime_attempts := 0,
    trade_count := 0, last_regime_key := none }

/-- C7 witness: fresh limiter already on key `"k"`. -/
def limiterC7b : TradeLimiter :=
  { max_signals_per_regime := 2, max_trades_per_day := 5, regime_attempts := 0,
    trade_count := 0, last_regime_key := some "k" }

/-- C7 witness: limiter whose daily trade budget is exhausted. -/
def limiterC7c : TradeLimiter :=
  { max_signals_per_regime := 2, max_trades_per_day := 5, regime_attempts := 0,
    trade_count := 5, last_regime_key := some "k" }

/-- C3 witness: an open long position. -/
def positionC3 : Position :=
  { entry_ts := 0, entry_price := 100, qty := 2, tp_price := 110, sl_price := 90 }

/-- C3 witness: a broker holding `positionC3` whose next draw forces a
partial fill (`partial_fill_probability = 1`, ratio draw `1/2`). -/
def brokerC3 : PaperBroker :=
  { fee_rate := 1/1000, partial_fill_probability := 1, min_partial_fill_ratio := 1/4,
    max_partial_fill_ratio := 1/2, slippage_bps := 10, rng := [(0, 1/2)],
    position := some positionC3 }

/-- Shared candle for the engine-tick witnesses. -/
def candleC45 : Candle :=
  { ts := 0, open_price := 100, high := 100, low := 100, close := 100, volume := 1 }

/-- C4 witness: an engine whose gate can never be on
(`min_confidence = 2`) while its strategy always signals
(`ema_period = 1`, `entry_deviation_pct = 0`). -/
def engineC4 : EngineState where
  detector :=
    { volatility_window := 1
      volatility_threshold := 1/2
      trend_window := 1
      trend_strength_threshold := 1/2
      range_ratio_threshold := 2 }
  edge_gate :=
    { volatility_threshold := 1/2
      trend_strength_threshold := 1/2
      min_confidence := 2 }
  sizer := { risk_per_trade_pct := 1/100, min_notional_usdt := 10 }
  limits := { daily_profit_cap_pct := 1, daily_loss_cap_pct := 1 }
  strategy := { ema_period := 1, entry_deviation_pct := 0 }
  trade_limiter :=
    { max_signals_per_regime := 5
      max_trades_per_day := 5
      regime_attempts := 0
      trade_count := 0
      last_regime_key := none }
  broker :=
    { fee_rate := 1/1000
      partial_fill_probability := 0
      min_partial_fill_ratio := 1/4
      max_partial_fill_ratio := 1/2
      slippage_bps := 10
      rng := []
      position := none }
  balance := { usdt_free := 100, btc_free := 0, day_start_equity := 100 }
  pnl := {}
  pair := "BTC/USDT"
  take_profit_pct := 1/100
  stop_loss_pct := 1/100
  closes := []
  highs := []
  lows := []

/-- The signal `engineC4`'s strategy emits on `candleC45`. -/
def sigC4 : Signal :=
  { ts := 0, side := "BUY", action := "ENTER", confidence := 0,
    reason := "mean_revert_deviation", ref_price := 100 }

/-- The open position held by `engineC5`. -/
def positionC5 : Position :=
  { entry_ts := 0, entry_price := 80, qty := 1, tp_price := 90, sl_price := 50 }

/-- C5 witness: an engine over its daily profit cap (equity 200 against
day-start 100 with a 100% gain versus a 1% cap) holding an open position
whose take-profit (90) the candle price (100) has reached. -/
def engineC5 : EngineState :=
  { engineC4 with
    limits := { daily_profit_cap_pct := 1/100, daily_loss_cap_pct := 1/100 }
    balance := { usdt_free := 200, btc_free := 0, day_start_equity := 100 }
    broker := { engineC4.broker with position := some positionC5 } }

/-! ## Theorems -/

/-- C1: `EdgeGate.evaluate` returns `is_on = true` iff all three
sub-checks hold and the confidence — the clamped fraction of true
sub-checks — is at least `min_confidence`; whenever `min_confidence ≤ 1`,
`is_on` equals the pure conjunction of the three sub-checks (the
statement is universally quantified over the regime, hence covers all 8
combinations of the three booleans). -/
theorem edge_gate_is_on_conjunction (g : EdgeGate) (r : RegimeState) :
    ((g.evaluate r).is_on = true ↔
      r.volatility ≤ g.volatility_threshold ∧
        r.trend_strength ≤ g.trend_strength_threshold ∧
        r.is_range_bound = true ∧ g.min_confidence ≤ (g.evaluate r).confidence)
    ∧ (g.evaluate r).confidence =
        max 0 (min 1 (((if r.volatility ≤ g.volatility_threshold then (1 : ℚ) else 0) +
          (if r.trend_strength ≤ g.trend_strength_threshold then (1 : ℚ) else 0) +
          (if r.is_range_bound then (1 : ℚ) else 0)) / 3))
    ∧ (g.min_confidence ≤ 1 →
        (g.evaluate r).is_on =
          (decide (r.volatility ≤ g.volatility_threshold) &&
            decide (r.trend_strength ≤ g.trend_strength_threshold) &&
            r.is_range_bound)) := by
  refine ⟨?_, ?_, ?_⟩
  · by_cases h1 : r.volatility ≤ g.volatility_threshold <;>
      by_cases h2 : r.trend_strength ≤ g.trend_strength_threshold <;>
      cases hr : r.is_range_bound <;>
      simp [EdgeGate.evaluate, h1, h2, hr, ge_iff_le]
  · by_cases h1 : r.volatility ≤ g.volatility_threshold <;>
      by_cases h2 : r.trend_strength ≤ g.trend_strength_threshold <;>
      cases hr : r.is_range_bound <;>
      simp [EdgeGate.evaluate, h1, h2, hr]
  · intro hmin
    by_cases h1 : r.volatility ≤ g.volatility_threshold <;>
      by_cases h2 : r.trend_strength ≤ g.trend_strength_threshold <;>
      cases hr : r.is_range_bound <;>
      simp [EdgeGate.evaluate, h1, h2, hr, ge_iff_le] <;>
      norm_num <;> tauto



/-- Witness for C1 at a concrete gate with `min_confidence = 1 ≤ 1`. -/
theorem edge_gate_is_on_conjunction_witness :
    (edgeGateC1.evaluate regimeC1).is_on =
      (decide ((0 : ℚ) ≤ 1/2) && decide ((0 : ℚ) ≤ 1/2) && true) :=
  (edge_gate_is_on_conjunction edgeGateC1 regimeC1).2.2 (by norm_num [edgeGateC1])

/-- C2: `PositionSizer.size` returns 0 when `available ≤ 0` or
`price ≤ 0`; otherwise with `notional = max min_notional (available *
risk_per_trade_pct)` it returns 0 when `notional > available`, and
otherwise returns `notional / price` truncated — never rounded up — to 6
decimal places (the result is the floor-quantization, is `≤` the exact
quotient, and differs from it by less than `10⁻⁶`). -/
theorem sizer_size_spec (s : PositionSizer) (a p : ℚ) :
    (a ≤ 0 ∨ p ≤ 0 → s.size a p = 0)
    ∧ (0 < a → 0 < p →
        (max s.min_notional_usdt (a * s.risk_per_trade_pct) > a → s.size a p = 0))
    ∧ (0 < a → 0 < p →
        max s.min_notional_usdt (a * s.risk_per_trade_pct) ≤ a →
        (s.size a p =
            (⌊max s.min_notional_usdt (a * s.risk_per_trade_pct) / p * 1000000⌋ : ℚ) / 1000000
          ∧ s.size a p ≤ max s.min_notional_usdt (a * s.risk_per_trade_pct) / p
          ∧ max s.min_notional_usdt (a * s.risk_per_trade_pct) / p - s.size a p
              < 1 / 1000000)) := by
  refine ⟨?_, ?_, ?_⟩
  · intro h
    simp [PositionSizer.size, h]
  · intro ha hp hgt
    rw [PositionSizer.size, if_neg (by push_neg; exact ⟨ha, hp⟩), if_pos hgt]
  · intro ha hp hle
    have hsz : s.size a p =
        (⌊max s.min_notional_usdt (a * s.risk_per_trade_pct) / p * 1000000⌋ : ℚ) / 1000000 := by
      rw [PositionSizer.size, if_neg (by push_neg; exact ⟨ha, hp⟩),
        if_neg (by exact not_lt.mpr hle)]
    refine ⟨hsz, ?_, ?_⟩
    · rw [hsz]
      have hfl : (⌊max s.min_notional_usdt (a * s.risk_per_trade_pct) / p * 1000000⌋ : ℚ) ≤
          max s.min_notional_usdt (a * s.risk_per_trade_pct) / p * 1000000 :=
        Int.floor_le _
      linarith
    · rw [hsz]
      have hfl : max s.min_notional_usdt (a * s.risk_per_trade_pct) / p * 1000000 <
          (⌊max s.min_notional_usdt (a * s.risk_per_trade_pct) / p * 1000000⌋ : ℚ) + 1 :=
        Int.lt_floor_add_one _
      linarith


/-- Witness for C2 at `available = 1000`, `price = 50000` (notional
floored up to `min_notional = 10`, quantity `10/50000` truncated). -/
theorem sizer_size_spec_witness :
    sizerC2.size 1000 50000 =
        (⌊max sizerC2.min_notional_usdt ((1000 : ℚ) * sizerC2.risk_per_trade_pct) / 50000
            * 1000000⌋ : ℚ) / 1000000
      ∧ sizerC2.size 1000 50000 ≤
          max sizerC2.min_notional_usdt ((1000 : ℚ) * sizerC2.risk_per_trade_pct) / 50000
      ∧ max sizerC2.min_notional_usdt ((1000 : ℚ) * sizerC2.risk_per_trade_pct) / 50000
          - sizerC2.size 1000 50000 < 1 / 1000000 :=
  (sizer_size_spec sizerC2 1000 50000).2.2 (by norm_num) (by norm_num)
    (by simp [sizerC2]; norm_num)

/-- C6: `DailyLimits.can_continue` denies with `"invalid_start_balance"`
when `start ≤ 0`; otherwise with `pnl_pct = (current - start)/start` it
denies `"daily_profit_cap_hit"` exactly when `pnl_pct ≥ profit_cap`,
denies `"daily_loss_cap_hit"` exactly when `pnl_pct ≤ -|loss_cap|`, and
allows with `"ok"` otherwise — equity exactly at either cap is denied,
strictly inside both boundaries is allowed. -/
theorem daily_limits_can_continue_spec (l : DailyLimits) (sb ce : ℚ) :
    (sb ≤ 0 → l.can_continue sb ce = (false, "invalid_start_balance"))
    ∧ (0 < sb → (ce - sb) / sb ≥ l.daily_profit_cap_pct →
        l.can_continue sb ce = (false, "daily_profit_cap_hit"))
    ∧ (0 < sb → (ce - sb) / sb < l.daily_profit_cap_pct →
        (ce - sb) / sb ≤ -|l.daily_loss_cap_pct| →
        l.can_continue sb ce = (false, "daily_loss_cap_hit"))
    ∧ (0 < sb → (ce - sb) / sb < l.daily_profit_cap_pct →
        -|l.daily_loss_cap_pct| < (ce - sb) / sb →
        l.can_continue sb ce = (true, "ok")) := by
  refine ⟨?_, ?_, ?_, ?_⟩
  · intro h
    simp [DailyLimits.can_continue, h]
  · intro hsb h
    rw [DailyLimits.can_continue, if_neg (by exact not_le.mpr hsb), if_pos h]
  · intro hsb h1 h2
    rw [DailyLimits.can_continue, if_neg (by exact not_le.mpr hsb),
      if_neg (by exact not_le.mpr h1), if_pos h2]
  · intro hsb h1 h2
    rw [DailyLimits.can_continue, if_neg (by exact not_le.mpr hsb),
      if_neg (by exact not_le.mpr h1), if_neg (by exact not_le.mpr h2)]


/-- Witness for C6: equity exactly at the profit cap is denied, one basis
point inside the boundary is allowed. -/
theorem daily_limits_can_continue_spec_witness :
    limitsC6.can_continue 100 101 = (false, "daily_profit_cap_hit")
    ∧ limitsC6.can_continue 100 (100 + 999/1000) = (true, "ok") :=
  ⟨(daily_limits_can_continue_spec limitsC6 100 101).2.1 (by norm_num)
      (by simp [limitsC6]; norm_num),
   (daily_limits_can_continue_spec limitsC6 100 (100 + 999/1000)).2.2.2 (by norm_num)
      (by simp [limitsC6]; norm_num)
      (by simp only [limitsC6]
          rw [abs_of_pos (by norm_num : (0 : ℚ) < 1/100)]
          norm_num)⟩

/-- C9: `PnLTracker.mark_exit` with no pending entry value recorded is a
no-op — every field of the tracker is exactly as before the call. -/
theorem mark_exit_noop (p : PnLTracker) (gross_proceeds : ℚ)
    (h : p.entry_value = none) : p.mark_exit gross_proceeds = p := by
  simp [PnLTracker.mark_exit, h]

/-- Witness for C9 at the freshly-initialized tracker. -/
theorem mark_exit_noop_witness :
    PnLTracker.mark_exit {} 123 = ({} : PnLTracker) :=
  mark_exit_noop {} 123 rfl

/-! ### Helper lemmas on `PnLTracker.update_equity` -/

/-- The updated peak is the max of the old peak and the new equity. -/
lemma update_equity_peak (p : PnLTracker) (e : ℚ) :
    (p.update_equity e).peak_equity = max p.peak_equity e := by
  rw [PnLTracker.update_equity]
  split <;> rfl

/-- Closed form of the updated max drawdown. -/
lemma update_equity_dd (p : PnLTracker) (e : ℚ) :
    (p.update_equity e).max_drawdown =
      if max p.peak_equity e > 0 then
        max p.max_drawdown ((max p.peak_equity e - e) / max p.peak_equity e)
      else p.max_drawdown := by
  rw [PnLTracker.update_equity]
  split <;> simp_all

/-- One `update_equity` call never decreases the max drawdown. -/
lemma update_equity_dd_mono (p : PnLTracker) (e : ℚ) :
    p.max_drawdown ≤ (p.update_equity e).max_drawdown := by
  rw [update_equity_dd]
  split
  · exact le_max_left _ _
  · exact le_refl _

/-- A whole sequence of `update_equity` calls never decreases the max
drawdown. -/
lemma foldl_update_dd_mono (es : List ℚ) (p : PnLTracker) :
    p.max_drawdown ≤ (es.foldl PnLTracker.update_equity p).max_drawdown := by
  induction es generalizing p with
  | nil => exact le_refl _
  | cons e es ih =>
    exact le_trans (update_equity_dd_mono p e) (ih (p.update_equity e))

/-- The peak after a sequence of `update_equity` calls is the running max
of the initial peak and all equities seen. -/
lemma foldl_update_peak (es : List ℚ) (p : PnLTracker) :
    (es.foldl PnLTracker.update_equity p).peak_equity = es.foldl max p.peak_equity := by
  induction es generalizing p with
  | nil => rfl
  | cons e es ih =>
    simp only [List.foldl_cons, ih, update_equity_peak]

/-- The max drawdown after a sequence of `update_equity` calls is the max
of the initial value and every drawdown observation along the way. -/
lemma foldl_update_ddObs (es : List ℚ) (p : PnLTracker) :
    (es.foldl PnLTracker.update_equity p).max_drawdown =
      (ddObs p es).foldl max p.max_drawdown := by
  induction es generalizing p with
  | nil => rfl
  | cons e es ih =>
    simp only [List.foldl_cons, ddObs, ih]
    by_cases h : (p.update_equity e).peak_equity > 0
    · rw [if_pos h]
      simp only [List.cons_append, List.nil_append, List.foldl_cons]
      congr 1
      rw [update_equity_dd, update_equity_peak]
      rw [update_equity_peak] at h
      rw [if_pos h]
    · rw [if_neg h]
      simp only [List.nil_append]
      congr 1
      rw [update_equity_dd]
      rw [update_equity_peak] at h
      rw [if_neg h]

/-- C8: across any sequence of `update_equity` calls the max drawdown is
monotonically non-decreasing (both for a single call and for a whole
sequence); the peak equity ends as the max of all equities seen and its
initial value; and the final max drawdown is exactly the max of the
initial value and all `(peak - equity)/peak` observations made at steps
whose running peak is positive. -/
theorem max_drawdown_monotone (p : PnLTracker) (e : ℚ) (es : List ℚ) :
    p.max_drawdown ≤ (p.update_equity e).max_drawdown
    ∧ p.max_drawdown ≤ (es.foldl PnLTracker.update_equity p).max_drawdown
    ∧ (es.foldl PnLTracker.update_equity p).peak_equity = es.foldl max p.peak_equity
    ∧ (es.foldl PnLTracker.update_equity p).max_drawdown =
        (ddObs p es).foldl max p.max_drawdown :=
  ⟨update_equity_dd_mono p e, foldl_update_dd_mono es p,
    foldl_update_peak es p, foldl_update_ddObs es p⟩

/-! ### Helper lemmas for the win/loss invariant -/

/-- Every single `PnLTracker` operation preserves
`wins + losses = trades_closed`. -/
lemma applyOp_wins_losses (p : PnLTracker) (op : PnLOp)
    (h : p.wins + p.losses = p.trades_closed) :
    (applyOp p op).wins + (applyOp p op).losses = (applyOp p op).trades_closed := by
  cases op with
  | markEntry c => simpa [applyOp, PnLTracker.mark_entry]
  | markExit g =>
    rw [applyOp, PnLTracker.mark_exit]
    cases hv : p.entry_value with
    | none => simpa
    | some entry =>
      simp only
      split <;> omega
  | updateEquity e =>
    rw [applyOp, PnLTracker.update_equity]
    split <;> simpa
  | markEdgeState b => simpa [applyOp, PnLTracker.mark_edge_state]

/-- A sequence of `PnLTracker` operations preserves
`wins + losses = trades_closed`. -/
lemma applyOps_wins_losses (ops : List PnLOp) (p : PnLTracker)
    (h : p.wins + p.losses = p.trades_closed) :
    (applyOps p ops).wins + (applyOps p ops).losses = (applyOps p ops).trades_closed := by
  induction ops generalizing p with
  | nil => exact h
  | cons op ops ih => exact ih (applyOp p op) (applyOp_wins_losses p op h)

/-- `win_rate` lies in `[0, 1]` whenever `wins + losses = trades_closed`. -/
lemma win_rate_bounds (p : PnLTracker) (h : p.wins + p.losses = p.trades_closed) :
    0 ≤ p.win_rate ∧ p.win_rate ≤ 1 := by
  rw [PnLTracker.win_rate]
  split
  · exact ⟨le_refl 0, zero_le_one⟩
  · rename_i htc
    have hpos : (0 : ℚ) < (p.trades_closed : ℚ) := by
      exact_mod_cast Nat.pos_of_ne_zero htc
    constructor
    · positivity
    · rw [div_le_one hpos]
      exact_mod_cast (by omega : p.wins ≤ p.trades_closed)

/-- C10: from any tracker state satisfying `wins + losses =
trades_closed` (in particular the initial state, where all three are 0),
every sequence of `mark_entry` / `mark_exit` / `update_equity` /
`mark_edge_state` operations preserves the invariant, and therefore
`win_rate` always lies in `[0, 1]`. -/
theorem pnl_win_loss_invariant (p : PnLTracker) (ops : List PnLOp)
    (h : p.wins + p.losses = p.trades_closed) :
    (applyOps p ops).wins + (applyOps p ops).losses = (applyOps p ops).trades_closed
    ∧ 0 ≤ (applyOps p ops).win_rate ∧ (applyOps p ops).win_rate ≤ 1 := by
  have hinv := applyOps_wins_losses ops p h
  exact ⟨hinv, (win_rate_bounds _ hinv).1, (win_rate_bounds _ hinv).2⟩

/-- Witness for C10: the freshly-initialized tracker through an
entry/winning-exit/entry/losing-exit/equity/edge sequence. -/
theorem pnl_win_loss_invariant_witness :
    (applyOps {} [.markEntry 100, .markExit 110, .markEntry 100, .markExit 90,
        .updateEquity 50, .markEdgeState false]).wins +
      (applyOps {} [.markEntry 100, .markExit 110, .markEntry 100, .markExit 90,
        .updateEquity 50, .markEdgeState false]).losses =
      (applyOps {} [.markEntry 100, .markExit 110, .markEntry 100, .markExit 90,
        .updateEquity 50, .markEdgeState false]).trades_closed
    ∧ 0 ≤ (applyOps {} [.markEntry 100, .markExit 110, .markEntry 100, .markExit 90,
        .updateEquity 50, .markEdgeState false]).win_rate
    ∧ (applyOps {} [.markEntry 100, .markExit 110, .markEntry 100, .markExit 90,
        .updateEquity 50, .markEdgeState false]).win_rate ≤ 1 :=
  pnl_win_loss_invariant {} [.markEntry 100, .markExit 110, .markEntry 100, .markExit 90,
    .updateEquity 50, .markEdgeState false] rfl

/-! ### Helper lemmas on `TradeLimiter` -/

/-- `adopt_key` with the already-stored key is the identity. -/
lemma adopt_key_same (t : TradeLimiter) (k : String)
    (h : t.last_regime_key = some k) : t.adopt_key k = t := by
  rw [TradeLimiter.adopt_key, if_neg (by simp [h])]

/-- `adopt_key` only touches the stored key and the attempt counter. -/
lemma adopt_key_fields (t : TradeLimiter) (k : String) :
    (t.adopt_key k).max_signals_per_regime = t.max_signals_per_regime
    ∧ (t.adopt_key k).max_trades_per_day = t.max_trades_per_day
    ∧ (t.adopt_key k).trade_count = t.trade_count
    ∧ (t.adopt_key k).last_regime_key = some k := by
  rw [TradeLimiter.adopt_key]
  split
  · exact ⟨rfl, rfl, rfl, rfl⟩
  · rename_i hk
    push_neg at hk
    exact ⟨rfl, rfl, rfl, hk⟩

/-- The attempt counter seen by the limit checks: the old value on a
matching key, `0` on a differing key. -/
lemma adopt_key_attempts (t : TradeLimiter) (k : String) :
    (t.adopt_key k).regime_attempts =
      if t.last_regime_key = some k then t.regime_attempts else 0 := by
  rw [TradeLimiter.adopt_key]
  split <;> simp_all

/-- On an allowed call the post-state attempt counter is the adjusted
counter plus one. -/
lemma allow_signal_allowed_attempts (t : TradeLimiter) (k : String)
    (h : ((t.allow_signal k).1).1 = true) :
    (t.allow_signal k).2.regime_attempts = (t.adopt_key k).regime_attempts + 1 := by
  rw [TradeLimiter.allow_signal] at *
  split_ifs at h ⊢ <;> simp_all

/-- On any call the post-state stored key is the call's key. -/
lemma allow_signal_key (t : TradeLimiter) (k : String) :
    (t.allow_signal k).2.last_regime_key = some k := by
  rw [TradeLimiter.allow_signal]
  split_ifs <;> simp [(adopt_key_fields t k).2.2.2]

/-- Under an adopted key, zero attempts, attempt budget `n` and spare
daily budget, the state after `i ≤ n` calls is the original with the
attempt counter at `i`. -/
lemma allowIter_closed_form (t : TradeLimiter) (k : String) (n : ℕ)
    (hlast : t.last_regime_key = some k) (h0 : t.regime_attempts = 0)
    (hmax : t.max_signals_per_regime = (n : ℤ))
    (htr : (t.trade_count : ℤ) < t.max_trades_per_day) :
    ∀ i, i ≤ n → allowIter t k i = { t with regime_attempts := i } := by
  intro i
  induction i with
  | zero =>
    intro _
    rw [allowIter, ← h0]
  | succ i ih =>
    intro hsucc
    rw [allowIter, ih (Nat.le_of_succ_le hsucc)]
    simp only [TradeLimiter.allow_signal, TradeLimiter.adopt_key]
    split_ifs <;> simp_all <;> omega

/-- C7: `allow_signal` (a) on a differing key first resets the attempt
counter to 0 and adopts the new key; (b) from an adopted key with zero
attempts and spare daily budget, exactly `max_signals_per_regime = n`
calls with that key are allowed and the next one is denied with
`"regime_attempt_limit"`; (c) when the attempt limit is not hit but the
trade count is at the daily maximum, the call is denied with
`"daily_trade_limit"`; (d) otherwise the attempt counter is incremented
and the call is allowed. -/
theorem trade_limiter_allow_signal_spec (t : TradeLimiter) (k : String) (n : ℕ) :
    (t.last_regime_key ≠ some k →
      t.allow_signal k =
        TradeLimiter.allow_signal
          { t with last_regime_key := some k, regime_attempts := 0 } k)
    ∧ (t.last_regime_key = some k → t.regime_attempts = 0 →
        t.max_signals_per_regime = (n : ℤ) →
        (t.trade_count : ℤ) < t.max_trades_per_day →
        (∀ i, i < n → ((allowIter t k i).allow_signal k).1 = (true, "ok"))
        ∧ ((allowIter t k n).allow_signal k).1 = (false, "regime_attempt_limit"))
    ∧ (((t.adopt_key k).regime_attempts : ℤ) < t.max_signals_per_regime →
        (t.trade_count : ℤ) ≥ t.max_trades_per_day →
        t.allow_signal k = ((false, "daily_trade_limit"), t.adopt_key k))
    ∧ (((t.adopt_key k).regime_attempts : ℤ) < t.max_signals_per_regime →
        (t.trade_count : ℤ) < t.max_trades_per_day →
        t.allow_signal k =
          ((true, "ok"),
            { t.adopt_key k with
                regime_attempts := (t.adopt_key k).regime_attempts + 1 })) := by
  obtain ⟨hms, hmt, htc, -⟩ := adopt_key_fields t k
  refine ⟨?_, ?_, ?_, ?_⟩
  · intro hk
    have h1 : t.adopt_key k =
        { t with last_regime_key := some k, regime_attempts := 0 } := by
      rw [TradeLimiter.adopt_key, if_pos hk]
    have h2 : TradeLimiter.adopt_key
        { t with last_regime_key := some k, regime_attempts := 0 } k =
        { t with last_regime_key := some k, regime_attempts := 0 } :=
      adopt_key_same _ _ rfl
    simp only [TradeLimiter.allow_signal, h1, h2]
  · intro hlast h0 hmax htr
    constructor
    · intro i hi
      rw [allowIter_closed_form t k n hlast h0 hmax htr i (le_of_lt hi)]
      simp only [TradeLimiter.allow_signal, TradeLimiter.adopt_key]
      split_ifs <;> simp_all <;> omega
    · rw [allowIter_closed_form t k n hlast h0 hmax htr n (le_refl n)]
      simp only [TradeLimiter.allow_signal, TradeLimiter.adopt_key]
      split_ifs <;> simp_all
  · intro hatt htrades
    rw [TradeLimiter.allow_signal]
    rw [if_neg (by rw [hms]; push_neg; exact hatt)]
    rw [if_pos (by rw [hmt, htc]; exact htrades)]
  · intro hatt htrades
    rw [TradeLimiter.allow_signal]
    rw [if_neg (by rw [hms]; push_neg; exact hatt)]
    rw [if_neg (by rw [hmt, htc]; push_neg; exact htrades)]

/-- Witness for C7 at concrete limiters: key adoption from an empty key,
denial with `"regime_attempt_limit"` after exactly 2 allowed calls,
denial with `"daily_trade_limit"` at an exhausted daily budget, and a
plain allowed call. -/
theorem trade_limiter_allow_signal_spec_witness :
    (limiterC7a.allow_signal "k" =
      TradeLimiter.allow_signal
        { limiterC7a with last_regime_key := some "k", regime_attempts := 0 } "k")
    ∧ ((allowIter limiterC7b "k" 2).allow_signal "k").1 = (false, "regime_attempt_limit")
    ∧ limiterC7c.allow_signal "k" = ((false, "daily_trade_limit"), limiterC7c.adopt_key "k")
    ∧ limiterC7b.allow_signal "k" =
        ((true, "ok"),
          { limiterC7b.adopt_key "k" with
              regime_attempts := (limiterC7b.adopt_key "k").regime_attempts + 1 }) :=
  ⟨(trade_limiter_allow_signal_spec limiterC7a "k" 2).1 (by decide),
   ((trade_limiter_allow_signal_spec limiterC7b "k" 2).2.1 (by decide) (by decide)
      (by decide) (by decide)).2,
   (trade_limiter_allow_signal_spec limiterC7c "k" 2).2.2.1 (by decide) (by decide),
   (trade_limiter_allow_signal_spec limiterC7b "k" 2).2.2.2 (by decide) (by decide)⟩

/-- C3: with an open position, `check_exit` triggers `"take_profit"`
when the market price reaches `tp_price`, `"stop_loss"` when (below the
take-profit trigger) it is at or under `sl_price`, simulating in either
case a sell fill for the *entire* position quantity and unconditionally
clearing the position — the broker state is universally quantified over
the RNG stream, so the position is cleared even on draws that make the
simulated exit fill partial, and the unfilled residual is untracked;
with no trigger the broker is unchanged. -/
theorem check_exit_clears_position (b : PaperBroker) (ts mp : ℚ) (pos : Position)
    (hpos : b.position = some pos) :
    (mp ≥ pos.tp_price →
      b.check_exit ts mp =
        ((some (b.simulate_fill (b.build_limit_order ts "SELL" mp pos.qty "BTC/USDT")).1,
          some "take_profit"),
         { (b.simulate_fill (b.build_limit_order ts "SELL" mp pos.qty "BTC/USDT")).2 with
             position := none }))
    ∧ (mp < pos.tp_price → mp ≤ pos.sl_price →
        b.check_exit ts mp =
          ((some (b.simulate_fill (b.build_limit_order ts "SELL" mp pos.qty "BTC/USDT")).1,
            some "stop_loss"),
           { (b.simulate_fill (b.build_limit_order ts "SELL" mp pos.qty "BTC/USDT")).2 with
               position := none }))
    ∧ (mp < pos.tp_price → pos.sl_price < mp → b.check_exit ts mp = ((none, none), b))
    ∧ ((b.check_exit ts mp).1.2 ≠ none → (b.check_exit ts mp).2.position = none) := by
  refine ⟨?_, ?_, ?_, ?_⟩
  · intro h
    simp only [PaperBroker.check_exit, hpos]
    rw [if_pos h]
  · intro h1 h2
    simp only [PaperBroker.check_exit, hpos]
    rw [if_neg (not_le.mpr h1), if_pos h2]
  · intro h1 h2
    simp only [PaperBroker.check_exit, hpos]
    rw [if_neg (not_le.mpr h1), if_neg (not_le.mpr h2)]
  · intro h
    simp only [PaperBroker.check_exit, hpos] at h ⊢
    split_ifs at h ⊢ <;> simp_all

/-- Witness for C3: at market price 115 ≥ tp 110 the exit triggers
`"take_profit"` and clears the position, even though the concretely
drawn exit fill is partial (`3/4 < 2`). -/
theorem check_exit_clears_position_witness :
    brokerC3.check_exit 1 115 =
      ((some (brokerC3.simulate_fill
          (brokerC3.build_limit_order 1 "SELL" 115 positionC3.qty "BTC/USDT")).1,
        some "take_profit"),
       { (brokerC3.simulate_fill
          (brokerC3.build_limit_order 1 "SELL" 115 positionC3.qty "BTC/USDT")).2 with
           position := none })
    ∧ (brokerC3.simulate_fill
        (brokerC3.build_limit_order 1 "SELL" 115 positionC3.qty "BTC/USDT")).1.qty
        < positionC3.qty :=
  ⟨(check_exit_clears_position brokerC3 1 115 positionC3 rfl).1
      (by norm_num [positionC3]),
   by norm_num [brokerC3, positionC3, PaperBroker.simulate_fill,
      PaperBroker.build_limit_order]⟩

/-! ### Helper lemmas for the engine tick -/

/-- `update_equity` leaves the trade counters and realized PnL alone. -/
lemma update_equity_keeps (p : PnLTracker) (e : ℚ) :
    (p.update_equity e).trades_closed = p.trades_closed
    ∧ (p.update_equity e).realized_pnl = p.realized_pnl := by
  rw [PnLTracker.update_equity]
  split <;> exact ⟨rfl, rfl⟩

/-- C5: on a tick whose daily-limit check denies, the engine stops before
the exit check: the event is the daily-limit stop, and the broker state
(including the open position and the RNG stream, i.e. no exit fill was
simulated), the balances, the limiter and the realized trade statistics
are all unchanged — an open position cannot be closed via take-profit or
stop-loss on such a tick. -/
theorem step_daily_stop_suppresses_exit (e : EngineState) (c : Candle)
    (h : (e.limits.can_continue e.balance.day_start_equity
        (e.balance.equity c.close)).1 = false) :
    (e.step c).2 = .dailyLimitStop
        (e.limits.can_continue e.balance.day_start_equity (e.balance.equity c.close)).2
    ∧ (e.step c).1.broker = e.broker
    ∧ (e.step c).1.balance = e.balance
    ∧ (e.step c).1.trade_limiter = e.trade_limiter
    ∧ (e.step c).1.pnl.trades_closed = e.pnl.trades_closed
    ∧ (e.step c).1.pnl.realized_pnl = e.pnl.realized_pnl := by
  simp only [EngineState.step]
  rw [if_pos h]
  refine ⟨rfl, rfl, rfl, rfl, ?_, ?_⟩
  · exact (update_equity_keeps _ _).1
  · exact (update_equity_keeps _ _).2

/-- Witness for C5: with equity 100% above day-start against a 1% cap
and an open position whose take-profit the candle has reached, the tick
ends at the daily stop and the broker (still holding the position) is
untouched. -/
theorem step_daily_stop_suppresses_exit_witness :
    (engineC5.step candleC45).2 = .dailyLimitStop
        (engineC5.limits.can_continue engineC5.balance.day_start_equity
          (engineC5.balance.equity candleC45.close)).2
    ∧ (engineC5.step candleC45).1.broker = engineC5.broker
    ∧ (engineC5.step candleC45).1.pnl.trades_closed = engineC5.pnl.trades_closed :=
  have h := step_daily_stop_suppresses_exit engineC5 candleC45
    (by norm_num [engineC5, engineC4, candleC45, DailyLimits.can_continue,
      AccountBalance.equity])
  ⟨h.1, h.2.1, h.2.2.2.2.1⟩

/-- C4: on every tick where the daily limit allows and the strategy
emits a signal, `allow_signal` is called on the regime key and its state
mutation takes effect before the edge-on check and the open-position
check: if the tick is then skipped because the edge is off or a position
is already open, the engine's limiter state is nevertheless the
post-`allow_signal` state, and when the call was allowed the attempt
counter has been consumed (incremented from its key-adjusted value). -/
theorem step_consumes_attempt_before_edge_and_position
    (e : EngineState) (c : Candle) (sig : Signal)
    (hallow : (e.limits.can_continue e.balance.day_start_equity
        (e.balance.equity c.close)).1 = true)
    (hsig : e.strategy.generate c.ts (e.closes ++ [c.close]) = some sig)
    (hskip :
      (e.edge_gate.evaluate (e.detector.classify (e.highs ++ [c.high])
          (e.lows ++ [c.low]) (e.closes ++ [c.close]))).is_on = false
      ∨ (e.broker.check_exit c.ts c.close).2.position.isSome = true) :
    (e.step c).1.trade_limiter =
      (e.trade_limiter.allow_signal (regimeKey (e.detector.classify (e.highs ++ [c.high])
        (e.lows ++ [c.low]) (e.closes ++ [c.close])))).2
    ∧ ((e.trade_limiter.allow_signal (regimeKey (e.detector.classify (e.highs ++ [c.high])
          (e.lows ++ [c.low]) (e.closes ++ [c.close])))).1.1 = true →
        (e.step c).1.trade_limiter.regime_attempts =
          (if e.trade_limiter.last_regime_key =
              some (regimeKey (e.detector.classify (e.highs ++ [c.high])
                (e.lows ++ [c.low]) (e.closes ++ [c.close])))
            then e.trade_limiter.regime_attempts else 0) + 1)
    ∧ ((e.step c).2 = .skipEdgeOff
        ∨ (e.step c).2 = .skipLimiter
            (e.trade_limiter.allow_signal (regimeKey (e.detector.classify
              (e.highs ++ [c.high]) (e.lows ++ [c.low]) (e.closes ++ [c.close])))).1.2
        ∨ (e.step c).2 = .skipPositionOpen) := by
  have hmain :
      (e.step c).1.trade_limiter =
        (e.trade_limiter.allow_signal (regimeKey (e.detector.classify (e.highs ++ [c.high])
          (e.lows ++ [c.low]) (e.closes ++ [c.close])))).2
      ∧ ((e.step c).2 = .skipEdgeOff
          ∨ (e.step c).2 = .skipLimiter
              (e.trade_limiter.allow_signal (regimeKey (e.detector.classify
                (e.highs ++ [c.high]) (e.lows ++ [c.low]) (e.closes ++ [c.close])))).1.2
          ∨ (e.step c).2 = .skipPositionOpen) := by
    simp only [EngineState.step]
    rw [if_neg (by simp [hallow])]
    rw [hsig]
    cases hexit : (e.broker.check_exit c.ts c.close).1.1 with
    | none =>
      dsimp only
      rcases hskip with hedge | hpos
      · rw [if_pos hedge]
        exact ⟨rfl, Or.inl rfl⟩
      · by_cases hedge : (e.edge_gate.evaluate (e.detector.classify (e.highs ++ [c.high])
            (e.lows ++ [c.low]) (e.closes ++ [c.close]))).is_on = false
        · rw [if_pos hedge]
          exact ⟨rfl, Or.inl rfl⟩
        · rw [if_neg hedge]
          by_cases hall : (e.trade_limiter.allow_signal (regimeKey (e.detector.classify
              (e.highs ++ [c.high]) (e.lows ++ [c.low]) (e.closes ++ [c.close])))).1.1 = false
          · rw [if_pos hall]
            exact ⟨rfl, Or.inr (Or.inl rfl)⟩
          · rw [if_neg hall, if_pos hpos]
            exact ⟨rfl, Or.inr (Or.inr rfl)⟩
    | some fill =>
      dsimp only
      rcases hskip with hedge | hpos
      · rw [if_pos hedge]
        exact ⟨rfl, Or.inl rfl⟩
      · by_cases hedge : (e.edge_gate.evaluate (e.detector.classify (e.highs ++ [c.high])
            (e.lows ++ [c.low]) (e.closes ++ [c.close]))).is_on = false
        · rw [if_pos hedge]
          exact ⟨rfl, Or.inl rfl⟩
        · rw [if_neg hedge]
          by_cases hall : (e.trade_limiter.allow_signal (regimeKey (e.detector.classify
              (e.highs ++ [c.high]) (e.lows ++ [c.low]) (e.closes ++ [c.close])))).1.1 = false
          · rw [if_pos hall]
            exact ⟨rfl, Or.inr (Or.inl rfl)⟩
          · rw [if_neg hall, if_pos hpos]
            exact ⟨rfl, Or.inr (Or.inr rfl)⟩
  refine ⟨hmain.1, ?_, hmain.2⟩
  intro hal
  rw [hmain.1, allow_signal_allowed_attempts _ _ hal, adopt_key_attempts]

/-- Witness for C4: on `engineC4` (permanently-off gate, always-signalling
strategy) the tick is skipped with edge-off, yet the limiter has adopted
the regime key and consumed one attempt. -/
theorem step_consumes_attempt_before_edge_and_position_witness :
    (engineC4.step candleC45).1.trade_limiter =
      (engineC4.trade_limiter.allow_signal (regimeKey (engineC4.detector.classify
        (engineC4.highs ++ [candleC45.high]) (engineC4.lows ++ [candleC45.low])
        (engineC4.closes ++ [candleC45.close])))).2
    ∧ (engineC4.step candleC45).1.trade_limiter.regime_attempts = 1 := by
  have h := step_consumes_attempt_before_edge_and_position engineC4 candleC45 sigC4
    (by norm_num [engineC4, candleC45, DailyLimits.can_continue, AccountBalance.equity])
    (by norm_num [engineC4, candleC45, sigC4, MeanReversionStrategy.generate, ema,
      pct_change, pySliceLast])
    (Or.inl (by norm_num [engineC4, candleC45, EdgeGate.evaluate, RegimeDetector.classify,
      realized_volatility, trend_strength, range_bound_ratio, pySliceLast, pyNegIdx,
      listMaxD, listMinD, pct_change, consecAbsRets, meanD]))
  refine ⟨h.1, ?_⟩
  rw [h.2.1 (by simp [engineC4, TradeLimiter.allow_signal, TradeLimiter.adopt_key])]
  simp [engineC4]

end TradingBot
